import Mathlib

/-!
Verification of the resource-lifecycle orchestration core of `aws-k8s-tester`
(`eks/role.go` and `eks/wordpress/wordpress.go`), as a shallow embedding.

External effects (the CloudFormation API, helm, kubectl, the Kubernetes API,
HTTP probes, channels) are represented by explicit oracle parameters: each
run of an operation is a pure function of the persisted configuration and of
the outcomes the external world hands back at each step.  `Sync()` (the
persistence sink) is modelled as an always-succeeding write-through; every
call to it is recorded in the emitted event trace.
-/

set_option maxRecDepth 4000

namespace AwsK8sTester

/-- Outcome of one external sub-step: `none` = success, `some msg` = the
error the collaborator returned, carrying its message text. -/
abbrev StepErr := Option String

/-- The Go `strings.Join(elems, sep)`: concatenation with `sep` between
consecutive elements. -/
def goJoin (sep : String) : List String → String
  | [] => ""
  | [s] => s
  | s :: rest => s ++ sep ++ goJoin sep rest

/-- Substring containment, the property checked by Go's `strings.Contains`. -/
def containsSub (s sub : String) : Prop := ∃ a b, s = a ++ sub ++ b

namespace wordpress

/-- The `AddOnWordpress` slice of the persisted `eksconfig.Config` that
`eks/wordpress/wordpress.go` reads and mutates (timing fields omitted:
wall-clock durations are outside the embedding). -/
structure AddOnWordpress where
  Created : Bool
  Namespace : String
  UserName : String
  Password : String
  URL : String
  NLBName : String
  NLBARN : String
  deriving Repr, DecidableEq

/-- One observable action of the wordpress tester: a write-through `Sync()`
(recording the `Created` value persisted) or an attempt of a named
external sub-step. -/
inductive WPEvent where
  | sync (created : Bool)
  | step (name : String)
  deriving Repr, DecidableEq

/-- Result of one run of a wordpress tester operation: the final persisted
add-on state, the returned error (`none` = success), and the ordered trace
of observable actions. -/
structure WPRun where
  state : AddOnWordpress
  result : StepErr
  events : List WPEvent
  deriving Repr, DecidableEq

/-- `tester.Delete` from `eks/wordpress/wordpress.go` (lines 89-122):
skip when not `Created`; otherwise attempt the helm uninstall and the
namespace deletion independently, collecting failure messages
(`uninstallRes`, `nsDelRes` are the collaborators' outcomes); join the
messages with `", "` into a single error; clear `Created` only when the
error list is empty.  The deferred timing `Sync()` runs on every non-skip
return path. -/
def wpDelete (st : AddOnWordpress) (uninstallRes nsDelRes : StepErr) : WPRun :=
  if !st.Created then
    { state := st, result := none, events := [] }
  else
    let errs : List String :=
      (match uninstallRes with
        | some e => [e]
        | none => []) ++
      (match nsDelRes with
        | some e => ["failed to delete Wordpress namespace (" ++ e ++ ")"]
        | none => [])
    if errs.isEmpty then
      let st1 := { st with Created := false }
      { state := st1, result := none,
        events := [.step "deleteHelmWordpress", .step "deleteNamespaceAndWait",
                   .sync false, .sync false] }
    else
      { state := st, result := some (goJoin ", " errs),
        events := [.step "deleteHelmWordpress", .step "deleteNamespaceAndWait",
                   .sync st.Created] }

/-- The Go `strings.Split` with a one-character separator, over a character
list: splits around each instance of `sep`; always returns at least one
(possibly empty) piece. -/
def splitChar (sep : Char) : List Char → List (List Char)
  | [] => [[]]
  | c :: cs =>
    let r := splitChar sep cs
    if c = sep then [] :: r
    else
      match r with
      | [] => [[c]]
      | h :: t => (c :: h) :: t

/-- The Go `strings.Split(s, sep)` for a one-character `sep`, over `String`. -/
def goSplit (s : String) (sep : Char) : List String :=
  (splitChar sep s.toList).map String.mk

/-- The Go `strings.Replace(s, old, new, -1)` for one-character patterns:
replace every occurrence. -/
def goReplaceAll (s : String) (a b : Char) : String :=
  String.mk (s.toList.map (fun c => if c = a then b else c))

/-- The Go `strings.Contains(s, sub)` (used on the probe output before the
`|| true` bypass). -/
def goContains (s sub : String) : Bool :=
  decide (sub.toList <:+: s.toList)

/-- `waitService` lines 287: `NLBName = strings.Split(hostName, "-")[0]`. -/
def derivedNLBName (hostName : String) : String :=
  (goSplit hostName '-').headD ""

/-- `waitService` lines 288-295: `ss := strings.Split(hostName, ".")[0]`,
`ss = strings.Replace(ss, "-", "/", -1)`, then the
`arn:aws:elasticloadbalancing:<region>:<account>:loadbalancer/net/<ss>`
format string. -/
def derivedNLBARN (region acct hostName : String) : String :=
  "arn:aws:elasticloadbalancing:" ++ region ++ ":" ++ acct ++
    ":loadbalancer/net/" ++ goReplaceAll ((goSplit hostName '.').headD "") '-' '/'

/-- What one `select` over the stop channel, the signal channel and the
timer tick resolves to at a check point of `waitService`. -/
inductive Sel where
  | stop
  | sig (s : String)
  | tick
  deriving Repr, DecidableEq

/-- One iteration of the endpoint-discovery loop: how the `select` resolved,
and what the Kubernetes `Services.Get` then returned — an error, or the
list of hostnames of the service's load-balancer ingress entries. -/
abbrev DiscIter := Sel × Except String (List String)

/-- One iteration of the health-probe loop: how the `select` resolved, and
what `httpReadInsecure` then returned — an error, or the fetched body. -/
abbrev ProbeIter := Sel × Except String String

/-- The endpoint-discovery loop of `waitService` (lines 229-278): each
iteration first runs the `select` (stop/signal aborts with the
corresponding error), then queries the service; a query error retries;
the hostname of the first ingress entry (empty when there is none) is
taken, and a non-empty hostname exits the loop.  An exhausted trace models
the `waitDur` window elapsing, leaving `hostName` empty. -/
def findHostName : List DiscIter → Except String String
  | [] => .ok ""
  | (c, res) :: rest =>
    match c with
    | .stop => .error "WordPress service creation aborted"
    | .sig s => .error ("received os signal " ++ s)
    | .tick =>
      match res with
      | .error _ => findHostName rest
      | .ok ingress =>
        if ingress.headD "" = "" then findHostName rest
        else .ok (ingress.headD "")

/-- The health-probe loop of `waitService` (lines 306-336): each iteration
first runs the `select`, then issues the HTTP GET; a failed GET retries;
a successful GET exits the loop because the body check is
`strings.Contains(out, marker) || true`.  An exhausted trace models the
window elapsing with no successful probe — the loop just ends. -/
def probeLoop : List ProbeIter → Except String Unit
  | [] => .ok ()
  | (c, res) :: rest =>
    match c with
    | .stop => .error "WordPress Service creation aborted"
    | .sig s => .error ("received os signal " ++ s)
    | .tick =>
      match res with
      | .error _ => probeLoop rest
      | .ok out =>
        if goContains out "<p>Welcome to WordPress. This is your first post." || true then
          .ok ()
        else
          probeLoop rest

/-- `tester.waitService` (lines 204-339): initial `select`, endpoint
discovery, fatal "failed to find host name" when no hostname was found,
installation of the derived URL / NLB name / NLB ARN into the add-on
state, then the health-probe loop; ends with `Sync()` (modelled as
always succeeding). -/
def waitService (st : AddOnWordpress) (region acct : String) (sel0 : Sel)
    (disc : List DiscIter) (probe : List ProbeIter) :
    AddOnWordpress × Except String Unit :=
  match sel0 with
  | .stop => (st, .error "WordPress service creation aborted")
  | .sig s => (st, .error ("received os signal " ++ s))
  | .tick =>
    match findHostName disc with
    | .error e => (st, .error e)
    | .ok h =>
      if h = "" then (st, .error "failed to find host name")
      else
        let st1 := { st with URL := "http://" ++ h,
                             NLBName := derivedNLBName h,
                             NLBARN := derivedNLBARN region acct h }
        match probeLoop probe with
        | .error e => (st1, .error e)
        | .ok _ => (st1, .ok ())

/-- A `select` resolution that is a cancellation source: the stop channel or
the OS signal channel fired. -/
def cancelSel : Sel → Prop
  | .stop => True
  | .sig _ => True
  | .tick => False

/-- The error messages `waitService` produces when a cancellation source
wins a `select` (lines 210-215, 229-235, 307-313). -/
def isCancelMsg (e : String) : Prop :=
  e = "WordPress service creation aborted" ∨
  e = "WordPress Service creation aborted" ∨
  ∃ s, e = "received os signal " ++ s

/-- A discovery iteration that does not end the loop: the timer tick won
and no non-empty hostname was produced. -/
def discNoHost : DiscIter → Prop
  | (.tick, .error _) => True
  | (.tick, .ok ingress) => ingress.headD "" = ""
  | (.stop, _) => False
  | (.sig _, _) => False

/-- A probe iteration that does not end the loop: the timer tick won and
the HTTP GET failed (every successful GET ends the loop). -/
def probeNoSuccess : ProbeIter → Prop
  | (.tick, .error _) => True
  | _ => False

/-- The spec's words for the name derivation: the substring of the hostname
before the first occurrence of the separator. -/
def takeBeforeFirst (sep : Char) : List Char → List Char
  | [] => []
  | c :: cs => if c = sep then [] else c :: takeBeforeFirst sep cs

/-- `tester.Create` (lines 57-87): skip when already `Created`; otherwise
set `Created := true` and `Sync()` first, then run namespace creation,
repo add, helm install and `waitService` in order, returning the first
failure; the deferred timing `Sync()` runs on every non-skip return
path, and a fully successful run also performs `waitService`'s own final
`Sync()` and `Create`'s returned `Sync()`. -/
def wpCreate (st : AddOnWordpress) (region acct : String)
    (nsRes repoRes installRes : StepErr)
    (sel0 : Sel) (disc : List DiscIter) (probe : List ProbeIter) : WPRun :=
  if st.Created then { state := st, result := none, events := [] }
  else
    let st1 := { st with Created := true }
    match nsRes with
    | some e =>
      { state := st1, result := some e,
        events := [.sync true, .step "createNamespace", .sync true] }
    | none =>
      match repoRes with
      | some e =>
        { state := st1, result := some e,
          events := [.sync true, .step "createNamespace", .step "repoAdd", .sync true] }
      | none =>
        match installRes with
        | some e =>
          { state := st1, result := some e,
            events := [.sync true, .step "createNamespace", .step "repoAdd",
                       .step "createHelmWordpress", .sync true] }
        | none =>
          match waitService st1 region acct sel0 disc probe with
          | (st2, .error e) =>
            { state := st2, result := some e,
              events := [.sync true, .step "createNamespace", .step "repoAdd",
                         .step "createHelmWordpress", .step "waitService", .sync true] }
          | (st2, .ok _) =>
            { state := st2, result := none,
              events := [.sync true, .step "createNamespace", .step "repoAdd",
                         .step "createHelmWordpress", .step "waitService",
                         .sync true, .sync true, .sync true] }

end wordpress

namespace role

/-- The `Parameters` fields of the tester configuration that
`eks/role.go` reads. -/
structure EKSParameters where
  ClusterRoleCreate : Bool
  ClusterRoleARN : String
  ClusterRoleName : String
  ClusterRoleServicePrincipals : List String
  ClusterRoleManagedPolicyARNs : List String
  deriving Repr, DecidableEq

/-- The `Status` fields of the tester configuration that `eks/role.go`
reads and mutates. -/
structure EKSStatus where
  ClusterRoleCFNStackID : String
  ClusterRoleARN : String
  deriving Repr, DecidableEq

/-- The slice of the tester configuration used by `createClusterRole` /
`deleteClusterRole`, including the feature flag that selects the NLB
template variant. -/
structure EKSCfg where
  Parameters : EKSParameters
  Status : EKSStatus
  AddOnNLBHelloWorldEnable : Bool
  deriving Repr, DecidableEq

/-- The two CloudFormation templates of `eks/role.go` (their YAML bodies are
opaque to the lifecycle logic). -/
inductive Template where
  | clusterRoleBasic
  | clusterRoleNLB
  deriving Repr, DecidableEq

/-- A call submitted to the external CloudFormation control plane. -/
inductive CFNCall where
  | createStack
  | deleteStack
  deriving Repr, DecidableEq

/-- Result of one run of a role lifecycle operation: the final
configuration, the returned error (`none` = success), and the calls
submitted to the control plane. -/
structure RoleRun where
  cfg : EKSCfg
  result : StepErr
  calls : List CFNCall
  deriving Repr, DecidableEq

/-- Template selection in `createClusterRole` (lines 141-144). -/
def selectTemplate (cfg : EKSCfg) : Template :=
  if cfg.AddOnNLBHelloWorldEnable then .clusterRoleNLB else .clusterRoleBasic

/-- The output-mapping loop of `createClusterRole` (lines 213-220): walk the
stack outputs in order; a `ClusterRoleARN` key installs its value into the
status; any other key stops with the `unexpected OutputKey` error (keys
already walked stay installed). -/
def installOutputs (stackID : String) (st : EKSStatus) :
    List (String × String) → EKSStatus × StepErr
  | [] => (st, none)
  | (k, v) :: rest =>
    if k = "ClusterRoleARN" then
      installOutputs stackID { st with ClusterRoleARN := v } rest
    else
      (st, some ("unexpected OutputKey \"" ++ k ++ "\" from \"" ++ stackID ++ "\""))

/-- `Tester.createClusterRole` (lines 126-228): skip with success when
creation is disabled or a role ARN / stack ID is already present; fail on
an empty role name; otherwise submit `CreateStack` (outcome `createRes`:
error, or the returned stack ID, which is recorded in the status), poll
to create-complete (outcome `pollRes`: error, or the stack's output
key/value list), then map the outputs; ends with `Sync()` (modelled as
always succeeding). -/
def createClusterRole (cfg : EKSCfg)
    (createRes : Except String String)
    (pollRes : Except String (List (String × String))) : RoleRun :=
  if !cfg.Parameters.ClusterRoleCreate then
    { cfg := cfg, result := none, calls := [] }
  else if cfg.Parameters.ClusterRoleARN != "" ||
      cfg.Status.ClusterRoleCFNStackID != "" ||
      cfg.Status.ClusterRoleARN != "" then
    { cfg := cfg, result := none, calls := [] }
  else if cfg.Parameters.ClusterRoleName == "" then
    { cfg := cfg, result := some "empty Parameters.ClusterRoleName", calls := [] }
  else
    match createRes with
    | .error e => { cfg := cfg, result := some e, calls := [.createStack] }
    | .ok stackID =>
      let cfg1 := { cfg with Status := { cfg.Status with ClusterRoleCFNStackID := stackID } }
      match pollRes with
      | .error e => { cfg := cfg1, result := some e, calls := [.createStack] }
      | .ok outputs =>
        match installOutputs stackID cfg1.Status outputs with
        | (st2, some e) =>
          { cfg := { cfg1 with Status := st2 }, result := some e, calls := [.createStack] }
        | (st2, none) =>
          { cfg := { cfg1 with Status := st2 }, result := none, calls := [.createStack] }

/-- The stop channel `deleteClusterRole` hands the poller (line 250): a
freshly made channel nothing ever sends on, modelled as the stream that
never fires. -/
def deleteStopCh : Nat → Bool := fun _ => false

/-- The interrupt-signal channel `deleteClusterRole` hands the poller
(line 251): freshly made, never signalled. -/
def deleteSigCh : Nat → Bool := fun _ => false

/-- Modelled from the spec: `awscfn.Poll` of `pkg/aws/cloudformation` is not
among the reviewed sources.  Per the spec, the poller closes its stream on
the desired terminal status, on a query failure, on the deadline, or on a
cancellation signal firing — whichever occurs first, checking the stop and
interrupt signals at every wait.  `trace` is the external observation at
each step: `some e` an error (query failure, FAILED status or deadline),
`none` still-in-progress; an exhausted trace is the desired terminal
status.  At step `i` a fired stop or interrupt channel wins and yields the
cancellation error. -/
def Poll (stopc sigc : Nat → Bool) : Nat → List (Option String) → Option String
  | _, [] => none
  | i, ob :: rest =>
    if stopc i || sigc i then some "cancellation signal fired before terminal status"
    else
      match ob with
      | some e => some e
      | none => Poll stopc sigc (i + 1) rest

/-- The outcome the same external trace yields when no cancellation source
exists at all: the first error, or terminal success. -/
def pollNoCancel : List (Option String) → Option String
  | [] => none
  | some e :: _ => some e
  | none :: rest => pollNoCancel rest

/-- `Tester.deleteClusterRole` (lines 230-277): skip with success when
creation is disabled or no stack ID is recorded; otherwise submit
`DeleteStack` (outcome `deleteRes`), then poll to delete-complete through
`Poll` with the two fresh never-signalled channels; on success the stack
ID and role ARN are left in the status as-is and `Sync()` is returned. -/
def deleteClusterRole (cfg : EKSCfg) (deleteRes : StepErr)
    (pollTrace : List (Option String)) : RoleRun :=
  if !cfg.Parameters.ClusterRoleCreate then
    { cfg := cfg, result := none, calls := [] }
  else if cfg.Status.ClusterRoleCFNStackID == "" then
    { cfg := cfg, result := none, calls := [] }
  else
    match deleteRes with
    | some e => { cfg := cfg, result := some e, calls := [.deleteStack] }
    | none =>
      match Poll deleteStopCh deleteSigCh 0 pollTrace with
      | some e => { cfg := cfg, result := some e, calls := [.deleteStack] }
      | none => { cfg := cfg, result := none, calls := [.deleteStack] }

end role

/-! ## Sample configurations used by concrete runs -/

/-- A wordpress add-on state with the given `Created` flag and no derived
endpoint data yet. -/
def sampleAddOn (created : Bool) : wordpress.AddOnWordpress :=
  { Created := created, Namespace := "eks-wordpress", UserName := "admin",
    Password := "pw", URL := "", NLBName := "", NLBARN := "" }

/-- A role configuration that already went through a successful create:
creation enabled, stack ID and role ARN recorded in the status. -/
def sampleRoleCfg : role.EKSCfg :=
  { Parameters := { ClusterRoleCreate := true, ClusterRoleARN := "",
                    ClusterRoleName := "eks-2020-cluster-role",
                    ClusterRoleServicePrincipals := [],
                    ClusterRoleManagedPolicyARNs := [] },
    Status := { ClusterRoleCFNStackID :=
                  "arn:aws:cloudformation:us-west-2:123456789012:stack/eks-role/abcd",
                ClusterRoleARN := "arn:aws:iam::123456789012:role/eks-2020-cluster-role" },
    AddOnNLBHelloWorldEnable := false }

/-- A role configuration about to create: creation enabled, nothing recorded
yet. -/
def sampleCreateCfg : role.EKSCfg :=
  { Parameters := { ClusterRoleCreate := true, ClusterRoleARN := "",
                    ClusterRoleName := "eks-2020-cluster-role",
                    ClusterRoleServicePrincipals := [],
                    ClusterRoleManagedPolicyARNs := [] },
    Status := { ClusterRoleCFNStackID := "", ClusterRoleARN := "" },
    AddOnNLBHelloWorldEnable := false }

/-- A role configuration with creation disabled. -/
def sampleDisabledCfg : role.EKSCfg :=
  { Parameters := { ClusterRoleCreate := false, ClusterRoleARN := "",
                    ClusterRoleName := "", ClusterRoleServicePrincipals := [],
                    ClusterRoleManagedPolicyARNs := [] },
    Status := { ClusterRoleCFNStackID := "", ClusterRoleARN := "" },
    AddOnNLBHelloWorldEnable := false }

/-! ## Helper lemmas -/

theorem containsSub_self (s : String) : containsSub s s :=
  ⟨"", "", by simp⟩

theorem containsSub_append_left (a b : String) : containsSub (a ++ b) a :=
  ⟨"", b, by simp⟩

theorem containsSub_append_right (a b : String) : containsSub (a ++ b) b :=
  ⟨a, "", by simp⟩

namespace wordpress

theorem splitChar_ne_nil (sep : Char) (l : List Char) : splitChar sep l ≠ [] := by
  cases l with
  | nil => simp [splitChar]
  | cons c cs =>
    simp only [splitChar]
    by_cases h : c = sep
    · simp [h]
    · cases hr : splitChar sep cs <;> simp [h, hr]

theorem splitChar_headD (sep : Char) (l : List Char) :
    (splitChar sep l).headD [] = takeBeforeFirst sep l := by
  induction l with
  | nil => rfl
  | cons c cs ih =>
    simp only [splitChar, takeBeforeFirst]
    by_cases h : c = sep
    · simp [h]
    · have hne := splitChar_ne_nil sep cs
      cases hr : splitChar sep cs with
      | nil => exact absurd hr hne
      | cons x xs =>
        rw [hr] at ih
        simp only [List.headD_cons] at ih
        simp [h, hr, ih]

theorem map_mk_headD (l : List (List Char)) (h : l ≠ []) :
    (l.map String.mk).headD "" = String.mk (l.headD []) := by
  cases l with
  | nil => exact absurd rfl h
  | cons x xs => rfl

theorem derivedNLBName_eq (h : String) :
    derivedNLBName h = String.mk (takeBeforeFirst '-' h.toList) := by
  unfold derivedNLBName goSplit
  rw [map_mk_headD _ (splitChar_ne_nil _ _), splitChar_headD]

theorem derivedNLBARN_eq (region acct h : String) :
    derivedNLBARN region acct h =
      "arn:aws:elasticloadbalancing:" ++ region ++ ":" ++ acct ++ ":loadbalancer/net/" ++
        String.mk ((takeBeforeFirst '.' h.toList).map (fun c => if c = '-' then '/' else c)) := by
  unfold derivedNLBARN goSplit goReplaceAll
  rw [map_mk_headD _ (splitChar_ne_nil _ _), splitChar_headD]
  rfl

theorem probeLoop_all_fail (probe : List ProbeIter)
    (h : ∀ x ∈ probe, x.1 = Sel.tick ∧ ∃ e, x.2 = Except.error e) :
    probeLoop probe = .ok () := by
  induction probe with
  | nil => rfl
  | cons x rest ih =>
    obtain ⟨c, res⟩ := x
    obtain ⟨hc, e, he⟩ := h (c, res) (by simp)
    simp only at hc he
    subst hc
    subst he
    simpa [probeLoop] using ih (fun y hy => h y (by simp [hy]))

theorem findHostName_cancel (l₁ : List DiscIter) (c : Sel)
    (r : Except String (List String)) (l₂ : List DiscIter)
    (h1 : ∀ x ∈ l₁, discNoHost x) (hc : cancelSel c) :
    ∃ e, findHostName (l₁ ++ (c, r) :: l₂) = .error e ∧ isCancelMsg e := by
  induction l₁ with
  | nil =>
    cases c with
    | stop => exact ⟨_, rfl, Or.inl rfl⟩
    | sig s => exact ⟨_, rfl, Or.inr (Or.inr ⟨s, rfl⟩)⟩
    | tick => exact absurd hc (by simp [cancelSel])
  | cons x rest ih =>
    obtain ⟨cs, res⟩ := x
    have hx := h1 (cs, res) (by simp)
    have hrest : ∀ y ∈ rest, discNoHost y := fun y hy => h1 y (by simp [hy])
    cases cs with
    | stop => exact absurd hx (by simp [discNoHost])
    | sig s => exact absurd hx (by simp [discNoHost])
    | tick =>
      cases res with
      | error e => simpa [findHostName] using ih hrest
      | ok ingress =>
        have hh : ingress.head?.getD "" = "" := by
          cases ingress with
          | nil => rfl
          | cons a t => simpa using hx
        simpa [findHostName, hh] using ih hrest

theorem probeLoop_cancel (p₁ : List ProbeIter) (c : Sel)
    (r : Except String String) (p₂ : List ProbeIter)
    (h1 : ∀ x ∈ p₁, probeNoSuccess x) (hc : cancelSel c) :
    ∃ e, probeLoop (p₁ ++ (c, r) :: p₂) = .error e ∧ isCancelMsg e := by
  induction p₁ with
  | nil =>
    cases c with
    | stop => exact ⟨_, rfl, Or.inr (Or.inl rfl)⟩
    | sig s => exact ⟨_, rfl, Or.inr (Or.inr ⟨s, rfl⟩)⟩
    | tick => exact absurd hc (by simp [cancelSel])
  | cons x rest ih =>
    obtain ⟨cs, res⟩ := x
    have hx := h1 (cs, res) (by simp)
    have hrest : ∀ y ∈ rest, probeNoSuccess y := fun y hy => h1 y (by simp [hy])
    cases cs with
    | stop => exact absurd hx (by simp [probeNoSuccess])
    | sig s => exact absurd hx (by simp [probeNoSuccess])
    | tick =>
      cases res with
      | error e => simpa [probeLoop] using ih hrest
      | ok out => exact absurd hx (by simp [probeNoSuccess])

theorem waitService_preserves_Created (st : AddOnWordpress) (region acct : String)
    (sel0 : Sel) (disc : List DiscIter) (probe : List ProbeIter) :
    (waitService st region acct sel0 disc probe).1.Created = st.Created := by
  cases sel0 with
  | stop => rfl
  | sig s => rfl
  | tick =>
    cases hfh : findHostName disc with
    | error e => simp [waitService, hfh]
    | ok h =>
      by_cases hh : h = ""
      · simp [waitService, hfh, hh]
      · cases hpl : probeLoop probe with
        | error e => simp [waitService, hfh, hh, hpl]
        | ok u => simp [waitService, hfh, hh, hpl]

theorem wpCreate_skip (st : AddOnWordpress) (region acct : String)
    (nsRes repoRes installRes : StepErr) (sel0 : Sel)
    (disc : List DiscIter) (probe : List ProbeIter) (hc : st.Created = true) :
    wpCreate st region acct nsRes repoRes installRes sel0 disc probe =
      { state := st, result := none, events := [] } := by
  simp [wpCreate, hc]

end wordpress

namespace role

theorem installOutputs_all_known (sid : String) (st : EKSStatus)
    (l : List (String × String)) (h : ∀ kv ∈ l, kv.1 = "ClusterRoleARN") :
    installOutputs sid st l =
      ({ st with ClusterRoleARN := l.foldl (fun _ kv => kv.2) st.ClusterRoleARN }, none) := by
  induction l generalizing st with
  | nil => cases st; rfl
  | cons kv rest ih =>
    obtain ⟨k, v⟩ := kv
    have hk : k = "ClusterRoleARN" := h (k, v) (by simp)
    have hr : ∀ kv ∈ rest, kv.1 = "ClusterRoleARN" := fun kv hm => h kv (by simp [hm])
    subst hk
    cases st
    simpa [installOutputs] using ih _ hr

theorem installOutputs_bad_key (sid : String) (st : EKSStatus)
    (l : List (String × String)) (h : ∃ kv ∈ l, kv.1 ≠ "ClusterRoleARN") :
    ∃ e, (installOutputs sid st l).2 = some e := by
  induction l generalizing st with
  | nil => simp at h
  | cons kv rest ih =>
    obtain ⟨k, v⟩ := kv
    by_cases hk : k = "ClusterRoleARN"
    · subst hk
      have hr : ∃ kv ∈ rest, kv.1 ≠ "ClusterRoleARN" := by
        rcases h with ⟨kv2, hm, hne⟩
        rcases List.mem_cons.mp hm with h1 | h2
        · exact absurd (by rw [h1]) hne
        · exact ⟨kv2, h2, hne⟩
      simpa [installOutputs] using ih _ hr
    · exact ⟨"unexpected OutputKey \"" ++ k ++ "\" from \"" ++ sid ++ "\"",
        by simp [installOutputs, hk]⟩

theorem Poll_fresh_eq_noCancel (i : Nat) (trace : List (Option String)) :
    Poll deleteStopCh deleteSigCh i trace = pollNoCancel trace := by
  induction trace generalizing i with
  | nil => rfl
  | cons ob rest ih =>
    cases ob <;> simp [Poll, pollNoCancel, deleteStopCh, deleteSigCh, ih]

end role

/-! ## Claim C1 -/

/-- Claim C1, counterexample: a create run whose endpoint discovery finds a
non-empty hostname but whose health-probe window elapses with every HTTP
probe failing returns success (`result = none`), not a readiness error:
the probe loop falls through to the final `Sync()` when its window is
exhausted. -/
theorem create_probe_all_failed_still_succeeds :
    (wordpress.wpCreate (sampleAddOn false) "us-west-2" "123456789012"
      none none none .tick
      [(.tick, .ok ["abcd1234-zone.elb.amazonaws.com"])]
      [(.tick, .error "connection refused"), (.tick, .error "connection refused")]).result
      = none := by rfl

/-- Claim C1, amended: for every run of the add-on create in which endpoint
discovery succeeds with a non-empty hostname and the health-probe window
elapses without any successful HTTP probe response, the overall `Create()`
returns success — the probe phase is best-effort and its exhaustion is not
an error; only endpoint-discovery failure is fatal. -/
theorem create_probe_window_best_effort
    (st : wordpress.AddOnWordpress) (region acct h : String)
    (disc : List wordpress.DiscIter) (probe : List wordpress.ProbeIter)
    (hc : st.Created = false)
    (hd : wordpress.findHostName disc = .ok h) (hh : h ≠ "")
    (hp : ∀ x ∈ probe, x.1 = wordpress.Sel.tick ∧ ∃ e, x.2 = Except.error e) :
    (wordpress.wpCreate st region acct none none none .tick disc probe).result = none := by
  have hpl := wordpress.probeLoop_all_fail probe hp
  simp [wordpress.wpCreate, hc, wordpress.waitService, hd, hh, hpl]

/-- Claim C1, amended, witness: a concrete run with a discovered hostname
and an immediately exhausted probe window returns success. -/
theorem create_probe_window_best_effort_witness :
    (sampleAddOn false).Created = false ∧
    wordpress.findHostName [(.tick, .ok ["abcd1234-zone.elb.amazonaws.com"])]
      = .ok "abcd1234-zone.elb.amazonaws.com" ∧
    (wordpress.wpCreate (sampleAddOn false) "us-west-2" "123456789012"
      none none none .tick
      [(.tick, .ok ["abcd1234-zone.elb.amazonaws.com"])] []).result = none :=
  ⟨rfl, rfl,
   create_probe_window_best_effort _ _ _ _ _ _ rfl rfl (by decide)
     (fun x hx => absurd hx (List.not_mem_nil x))⟩

/-! ## Claim C2 -/

/-- Claim C2, counterexample: a delete run in which both sub-steps were
attempted but the helm uninstall failed returns an error and leaves
`Created` still `true` — the code returns before the `Created = false`
assignment — refuting the claim that `Created` is cleared whenever both
sub-steps were attempted. -/
theorem delete_failure_keeps_created :
    wordpress.WPEvent.step "deleteHelmWordpress"
        ∈ (wordpress.wpDelete (sampleAddOn true) (some "uninstall failed") none).events ∧
    wordpress.WPEvent.step "deleteNamespaceAndWait"
        ∈ (wordpress.wpDelete (sampleAddOn true) (some "uninstall failed") none).events ∧
    (wordpress.wpDelete (sampleAddOn true) (some "uninstall failed") none).result
      = some "uninstall failed" ∧
    (wordpress.wpDelete (sampleAddOn true) (some "uninstall failed") none).state.Created
      = true := by
  refine ⟨?_, ?_, rfl, rfl⟩ <;> decide

/-- Claim C2, amended: when both sub-steps are attempted, `Created` is set to
`false` before `Delete()` returns exactly when no sub-step failed; when an
error is returned, `Created` remains `true`. -/
theorem delete_clears_created_iff_success
    (st : wordpress.AddOnWordpress) (u n : StepErr) (hc : st.Created = true) :
    ((wordpress.wpDelete st u n).state.Created = false ↔ u = none ∧ n = none) ∧
    ((wordpress.wpDelete st u n).result = none ↔ u = none ∧ n = none) := by
  cases u <;> cases n <;> simp [wordpress.wpDelete, hc, goJoin]

/-- Claim C2, amended, witness: a fully successful delete clears `Created`
and returns success. -/
theorem delete_clears_created_iff_success_witness :
    (sampleAddOn true).Created = true ∧
    (((wordpress.wpDelete (sampleAddOn true) none none).state.Created = false ↔
        (none : StepErr) = none ∧ (none : StepErr) = none) ∧
     ((wordpress.wpDelete (sampleAddOn true) none none).result = none ↔
        (none : StepErr) = none ∧ (none : StepErr) = none)) :=
  ⟨rfl, delete_clears_created_iff_success _ none none rfl⟩

/-! ## Claim C5 -/

/-- Claim C5: whenever creation is disabled, or an external role ARN, a
recorded stack ID or a recorded role ARN is already present,
`createClusterRole` returns success, submits nothing to CloudFormation
and leaves the configuration unchanged. -/
theorem create_role_skip_noop
    (cfg : role.EKSCfg) (createRes : Except String String)
    (pollRes : Except String (List (String × String)))
    (h : cfg.Parameters.ClusterRoleCreate = false ∨ cfg.Parameters.ClusterRoleARN ≠ "" ∨
         cfg.Status.ClusterRoleCFNStackID ≠ "" ∨ cfg.Status.ClusterRoleARN ≠ "") :
    role.createClusterRole cfg createRes pollRes =
      { cfg := cfg, result := none, calls := [] } := by
  cases hcr : cfg.Parameters.ClusterRoleCreate with
  | false => simp [role.createClusterRole, hcr]
  | true =>
    have hor : (cfg.Parameters.ClusterRoleARN != "" || cfg.Status.ClusterRoleCFNStackID != "" ||
        cfg.Status.ClusterRoleARN != "") = true := by
      rcases h with h | h | h | h
      · rw [hcr] at h; exact absurd h (by decide)
      · simp [bne_iff_ne.mpr h]
      · simp [bne_iff_ne.mpr h]
      · simp [bne_iff_ne.mpr h]
    simp [role.createClusterRole, hcr, hor]

/-- Claim C5, witness: with creation disabled, a create call is a no-op
success with no CloudFormation submission. -/
theorem create_role_skip_noop_witness :
    sampleDisabledCfg.Parameters.ClusterRoleCreate = false ∧
    role.createClusterRole sampleDisabledCfg (.ok "sid") (.ok []) =
      { cfg := sampleDisabledCfg, result := none, calls := [] } :=
  ⟨rfl, create_role_skip_noop _ _ _ (Or.inl rfl)⟩

/-! ## Claim C6 -/

/-- Claim C6: on a non-skipped delete, both sub-steps are attempted
regardless of the uninstall outcome, an error is returned iff at least one
sub-step failed, and the combined message contains the text of every
failing sub-step. -/
theorem delete_attempts_both_and_aggregates
    (st : wordpress.AddOnWordpress) (u n : StepErr) (hc : st.Created = true) :
    (wordpress.WPEvent.step "deleteHelmWordpress" ∈ (wordpress.wpDelete st u n).events ∧
     wordpress.WPEvent.step "deleteNamespaceAndWait" ∈ (wordpress.wpDelete st u n).events) ∧
    ((wordpress.wpDelete st u n).result.isSome ↔ (u.isSome ∨ n.isSome)) ∧
    (∀ e m, u = some e → (wordpress.wpDelete st u n).result = some m → containsSub m e) ∧
    (∀ e m, n = some e → (wordpress.wpDelete st u n).result = some m →
      containsSub m ("failed to delete Wordpress namespace (" ++ e ++ ")")) := by
  cases u with
  | none =>
    cases n with
    | none => simp [wordpress.wpDelete, hc]
    | some f =>
      refine ⟨by simp [wordpress.wpDelete, hc], by simp [wordpress.wpDelete, hc], ?_, ?_⟩
      · intro e m he
        exact absurd he (by simp)
      · intro e m he hm
        have hee : f = e := by simpa using he
        rw [← hee]
        have hmm : m = "failed to delete Wordpress namespace (" ++ f ++ ")" := by
          simpa [wordpress.wpDelete, hc, goJoin] using hm.symm
        rw [hmm]
        exact containsSub_self _
  | some eu =>
    cases n with
    | none =>
      refine ⟨by simp [wordpress.wpDelete, hc], by simp [wordpress.wpDelete, hc], ?_, ?_⟩
      · intro e m he hm
        have hee : eu = e := by simpa using he
        rw [← hee]
        have hmm : m = eu := by simpa [wordpress.wpDelete, hc, goJoin] using hm.symm
        rw [hmm]
        exact containsSub_self _
      · intro e m he
        exact absurd he (by simp)
    | some f =>
      refine ⟨by simp [wordpress.wpDelete, hc], by simp [wordpress.wpDelete, hc], ?_, ?_⟩
      · intro e m he hm
        have hee : eu = e := by simpa using he
        rw [← hee]
        have hmm : m = eu ++ ", " ++ ("failed to delete Wordpress namespace (" ++ f ++ ")") := by
          simpa [wordpress.wpDelete, hc, goJoin] using hm.symm
        rw [hmm, String.append_assoc]
        exact containsSub_append_left _ _
      · intro e m he hm
        have hee : f = e := by simpa using he
        rw [← hee]
        have hmm : m = eu ++ ", " ++ ("failed to delete Wordpress namespace (" ++ f ++ ")") := by
          simpa [wordpress.wpDelete, hc, goJoin] using hm.symm
        rw [hmm]
        exact containsSub_append_right _ _

/-- Claim C6, witness: with a failing uninstall and a successful namespace
deletion, both steps are attempted, an error is returned, and the message
contains the uninstall failure text. -/
theorem delete_attempts_both_and_aggregates_witness :
    (sampleAddOn true).Created = true ∧
    ((wordpress.WPEvent.step "deleteHelmWordpress"
        ∈ (wordpress.wpDelete (sampleAddOn true) (some "uninstall boom") none).events ∧
      wordpress.WPEvent.step "deleteNamespaceAndWait"
        ∈ (wordpress.wpDelete (sampleAddOn true) (some "uninstall boom") none).events) ∧
     ((wordpress.wpDelete (sampleAddOn true) (some "uninstall boom") none).result.isSome ↔
        ((some "uninstall boom" : StepErr).isSome ∨ (none : StepErr).isSome)) ∧
     (∀ e m, (some "uninstall boom" : StepErr) = some e →
        (wordpress.wpDelete (sampleAddOn true) (some "uninstall boom") none).result = some m →
        containsSub m e) ∧
     (∀ e m, (none : StepErr) = some e →
        (wordpress.wpDelete (sampleAddOn true) (some "uninstall boom") none).result = some m →
        containsSub m ("failed to delete Wordpress namespace (" ++ e ++ ")"))) :=
  ⟨rfl, delete_attempts_both_and_aggregates _ (some "uninstall boom") none rfl⟩

/-! ## Claim C3 -/

/-- Claim C3, counterexample: a `deleteClusterRole` run that observes
delete-complete returns success yet leaves the recorded CloudFormation
stack ID in the status, and a second delete call submits `DeleteStack`
again instead of skipping — refuting the claim that the creation marker
and handle are cleared before returning. -/
theorem delete_role_success_keeps_handle :
    (role.deleteClusterRole sampleRoleCfg none []).result = none ∧
    (role.deleteClusterRole sampleRoleCfg none []).cfg.Status.ClusterRoleCFNStackID =
      "arn:aws:cloudformation:us-west-2:123456789012:stack/eks-role/abcd" ∧
    (role.deleteClusterRole (role.deleteClusterRole sampleRoleCfg none []).cfg none []).calls =
      [role.CFNCall.deleteStack] :=
  ⟨rfl, rfl, rfl⟩

/-- Claim C3, amended: a stack delete run that observes delete-complete
returns success with exactly one `DeleteStack` submission and leaves the
configuration — including the recorded stack ID and role ARN — unchanged;
a second delete call therefore re-submits the external delete rather than
being a skip/no-op. -/
theorem delete_role_success_state_unchanged
    (cfg : role.EKSCfg) (trace : List (Option String))
    (h1 : cfg.Parameters.ClusterRoleCreate = true)
    (h2 : cfg.Status.ClusterRoleCFNStackID ≠ "")
    (h3 : role.pollNoCancel trace = none) :
    role.deleteClusterRole cfg none trace =
      { cfg := cfg, result := none, calls := [.deleteStack] } ∧
    (role.deleteClusterRole (role.deleteClusterRole cfg none trace).cfg none trace).calls =
      [role.CFNCall.deleteStack] := by
  have hb : (cfg.Status.ClusterRoleCFNStackID == "") = false := beq_eq_false_iff_ne.mpr h2
  have hpoll := role.Poll_fresh_eq_noCancel 0 trace
  have h4 : role.deleteClusterRole cfg none trace =
      { cfg := cfg, result := none, calls := [.deleteStack] } := by
    simp [role.deleteClusterRole, h1, hb, hpoll, h3]
  refine ⟨h4, ?_⟩
  rw [h4]
  simp [role.deleteClusterRole, h1, hb, hpoll, h3]

/-- Claim C3, amended, witness: a concrete delete run that reaches
delete-complete after one in-progress poll keeps the recorded stack ID
and submits again on a second call. -/
theorem delete_role_success_state_unchanged_witness :
    sampleRoleCfg.Parameters.ClusterRoleCreate = true ∧
    sampleRoleCfg.Status.ClusterRoleCFNStackID ≠ "" ∧
    role.pollNoCancel [none] = none ∧
    (role.deleteClusterRole sampleRoleCfg none [none] =
       { cfg := sampleRoleCfg, result := none, calls := [.deleteStack] } ∧
     (role.deleteClusterRole (role.deleteClusterRole sampleRoleCfg none [none]).cfg
        none [none]).calls = [role.CFNCall.deleteStack]) :=
  ⟨rfl, by decide, rfl,
   delete_role_success_state_unchanged sampleRoleCfg [none] rfl (by decide) rfl⟩

/-! ## Claim C4 -/

/-- Claim C4: for every output list of a successful stack create (non-skip
path, successful submission and poll), if every output key is the known
`ClusterRoleARN` then every output is installed — the final status holds
the last installed value — and the run succeeds; if any output key is not
in the known schema, the operation returns an error (no silent success). -/
theorem create_role_output_mapping
    (cfg : role.EKSCfg) (sid : String) (outputs : List (String × String))
    (hcr : cfg.Parameters.ClusterRoleCreate = true)
    (h1 : cfg.Parameters.ClusterRoleARN = "")
    (h2 : cfg.Status.ClusterRoleCFNStackID = "")
    (h3 : cfg.Status.ClusterRoleARN = "")
    (h4 : cfg.Parameters.ClusterRoleName ≠ "") :
    ((∀ kv ∈ outputs, kv.1 = "ClusterRoleARN") →
      (role.createClusterRole cfg (.ok sid) (.ok outputs)).result = none ∧
      (role.createClusterRole cfg (.ok sid) (.ok outputs)).cfg.Status.ClusterRoleARN =
        outputs.foldl (fun _ kv => kv.2) "") ∧
    ((∃ kv ∈ outputs, kv.1 ≠ "ClusterRoleARN") →
      ∃ e, (role.createClusterRole cfg (.ok sid) (.ok outputs)).result = some e) := by
  have hb4 : (cfg.Parameters.ClusterRoleName == "") = false := beq_eq_false_iff_ne.mpr h4
  have hskip : (cfg.Parameters.ClusterRoleARN != "" || cfg.Status.ClusterRoleCFNStackID != "" ||
      cfg.Status.ClusterRoleARN != "") = false := by
    simp [h1, h2, h3]
  constructor
  · intro hall
    have hio : role.installOutputs sid ⟨sid, ""⟩ outputs =
        (⟨sid, outputs.foldl (fun _ kv => kv.2) ""⟩, none) := by
      simpa using role.installOutputs_all_known sid ⟨sid, ""⟩ outputs hall
    constructor
    · simp [role.createClusterRole, hcr, hskip, hb4, h1, h2, h3, hio]
    · simp [role.createClusterRole, hcr, hskip, hb4, h1, h2, h3, hio]
  · intro hbad
    obtain ⟨e, he⟩ := role.installOutputs_bad_key sid ⟨sid, ""⟩ outputs hbad
    rcases hio : role.installOutputs sid ⟨sid, ""⟩ outputs with ⟨st2, oe⟩
    rw [hio] at he
    simp only at he
    subst he
    exact ⟨e, by simp [role.createClusterRole, hcr, hskip, hb4, h1, h2, h3, hio]⟩

/-- Claim C4, witness: a successful create whose single output is the known
key installs its value into the status and succeeds. -/
theorem create_role_output_mapping_witness :
    sampleCreateCfg.Parameters.ClusterRoleCreate = true ∧
    sampleCreateCfg.Parameters.ClusterRoleName ≠ "" ∧
    (role.createClusterRole sampleCreateCfg (.ok "sid")
      (.ok [("ClusterRoleARN", "arn:aws:iam::123456789012:role/eks")])).result = none ∧
    (role.createClusterRole sampleCreateCfg (.ok "sid")
      (.ok [("ClusterRoleARN", "arn:aws:iam::123456789012:role/eks")])).cfg.Status.ClusterRoleARN =
      "arn:aws:iam::123456789012:role/eks" :=
  ⟨rfl, by decide,
   ((create_role_output_mapping sampleCreateCfg "sid"
       [("ClusterRoleARN", "arn:aws:iam::123456789012:role/eks")]
       rfl rfl rfl rfl (by decide)).1 (by decide)).1,
   rfl⟩

/-! ## Claim C7 -/

/-- Claim C7: for every discovered ingress hostname, the derived NLB name is
the substring of the hostname before the first dash, and the derived ARN
is the `arn:aws:elasticloadbalancing:<region>:<account>:loadbalancer/net/`
prefix followed by the substring before the first dot with every dash
replaced by a slash; in particular the spec's concrete scenario holds. -/
theorem derived_name_and_arn :
    (∀ h : String,
      wordpress.derivedNLBName h = String.mk (wordpress.takeBeforeFirst '-' h.toList)) ∧
    (∀ region acct h : String,
      wordpress.derivedNLBARN region acct h =
        "arn:aws:elasticloadbalancing:" ++ region ++ ":" ++ acct ++ ":loadbalancer/net/" ++
          String.mk ((wordpress.takeBeforeFirst '.' h.toList).map
            (fun c => if c = '-' then '/' else c))) ∧
    wordpress.derivedNLBName "abcd1234-zone.elb.amazonaws.com" = "abcd1234" ∧
    wordpress.derivedNLBARN "us-west-2" "123456789012" "abcd1234-zone.elb.amazonaws.com" =
      "arn:aws:elasticloadbalancing:us-west-2:123456789012:loadbalancer/net/abcd1234/zone" :=
  ⟨wordpress.derivedNLBName_eq, wordpress.derivedNLBARN_eq, by decide, by decide⟩

/-! ## Claim C8 -/

/-- Claim C8: whenever a stop or OS-interrupt signal wins a `select` at a
check point of `waitService` — before the initial wait, at a discovery
iteration reached before any hostname was found, or at a probe iteration
reached before any probe succeeded — `waitService` returns a cancellation
error, never success. -/
theorem wait_service_cancellation_precedence
    (st : wordpress.AddOnWordpress) (region acct : String) (sel0 : wordpress.Sel)
    (disc : List wordpress.DiscIter) (probe : List wordpress.ProbeIter)
    (H : wordpress.cancelSel sel0 ∨
      (sel0 = .tick ∧ ∃ l₁ c r l₂, disc = l₁ ++ (c, r) :: l₂ ∧
        (∀ x ∈ l₁, wordpress.discNoHost x) ∧ wordpress.cancelSel c) ∨
      (sel0 = .tick ∧ (∃ h, wordpress.findHostName disc = .ok h ∧ h ≠ "") ∧
        ∃ p₁ c r p₂, probe = p₁ ++ (c, r) :: p₂ ∧
          (∀ x ∈ p₁, wordpress.probeNoSuccess x) ∧ wordpress.cancelSel c)) :
    ∃ e, (wordpress.waitService st region acct sel0 disc probe).2 = .error e ∧
      wordpress.isCancelMsg e := by
  rcases H with hc0 | ⟨ht, l₁, c, r, l₂, hdeq, hno, hcs⟩ | ⟨ht, ⟨h, hfh, hne⟩, p₁, c, r, p₂, hpeq, hns, hcs⟩
  · cases sel0 with
    | stop => exact ⟨_, rfl, Or.inl rfl⟩
    | sig s => exact ⟨_, rfl, Or.inr (Or.inr ⟨s, rfl⟩)⟩
    | tick => exact absurd hc0 (by simp [wordpress.cancelSel])
  · subst ht
    subst hdeq
    obtain ⟨e, he, hm⟩ := wordpress.findHostName_cancel l₁ c r l₂ hno hcs
    exact ⟨e, by simp [wordpress.waitService, he], hm⟩
  · subst ht
    subst hpeq
    obtain ⟨e, he, hm⟩ := wordpress.probeLoop_cancel p₁ c r p₂ hns hcs
    exact ⟨e, by simp [wordpress.waitService, hfh, hne, he], hm⟩

/-- Claim C8, witness: a stop signal firing at the initial check point yields
a cancellation error. -/
theorem wait_service_cancellation_precedence_witness :
    wordpress.cancelSel .stop ∧
    (∃ e, (wordpress.waitService (sampleAddOn false) "us-west-2" "123456789012"
        .stop [] []).2 = .error e ∧ wordpress.isCancelMsg e) :=
  ⟨trivial,
   wait_service_cancellation_precedence _ _ _ _ _ _ (Or.inl trivial)⟩

/-! ## Claim C9 -/

/-- Claim C9: the delete-completion poll of `deleteClusterRole` is handed the
two freshly made, never-signalled channels, so it can never abort on a
stop or interrupt signal: neither channel ever fires, and for every
external trace the poll's outcome coincides with the outcome of polling
with no cancellation sources at all (first external error, else terminal
delete-complete). -/
theorem delete_role_poll_never_cancelled :
    (∀ j, (role.deleteStopCh j || role.deleteSigCh j) = false) ∧
    (∀ (i : Nat) (trace : List (Option String)),
      role.Poll role.deleteStopCh role.deleteSigCh i trace = role.pollNoCancel trace) :=
  ⟨fun _ => rfl, role.Poll_fresh_eq_noCancel⟩

/-! ## Claim C10 -/

/-- Claim C10: a non-skipped add-on create sets `Created := true` and syncs
it as its very first observable action, before any creation step; whatever
the step outcomes, the final state still has `Created = true`, and a
subsequent `Create()` on that state is a success no-op that re-attempts
nothing. -/
theorem create_marks_created_first
    (st : wordpress.AddOnWordpress) (region acct : String)
    (nsRes repoRes installRes : StepErr) (sel0 : wordpress.Sel)
    (disc : List wordpress.DiscIter) (probe : List wordpress.ProbeIter)
    (hc : st.Created = false) :
    (wordpress.wpCreate st region acct nsRes repoRes installRes sel0 disc probe).events.head? =
      some (wordpress.WPEvent.sync true) ∧
    (wordpress.wpCreate st region acct nsRes repoRes installRes sel0 disc probe).state.Created =
      true ∧
    (∀ (region2 acct2 : String) (ns2 rp2 in2 : StepErr) (sel2 : wordpress.Sel)
        (disc2 : List wordpress.DiscIter) (probe2 : List wordpress.ProbeIter),
      wordpress.wpCreate
        (wordpress.wpCreate st region acct nsRes repoRes installRes sel0 disc probe).state
        region2 acct2 ns2 rp2 in2 sel2 disc2 probe2 =
      { state := (wordpress.wpCreate st region acct nsRes repoRes installRes sel0 disc
          probe).state, result := none, events := [] }) := by
  have hstate :
      (wordpress.wpCreate st region acct nsRes repoRes installRes sel0 disc probe).state.Created =
        true := by
    cases nsRes with
    | some e => simp [wordpress.wpCreate, hc]
    | none =>
      cases repoRes with
      | some e => simp [wordpress.wpCreate, hc]
      | none =>
        cases installRes with
        | some e => simp [wordpress.wpCreate, hc]
        | none =>
          rcases hws : wordpress.waitService { st with Created := true } region acct sel0 disc
            probe with ⟨st2, res⟩
          have h2 : st2.Created = true := by
            have hp := wordpress.waitService_preserves_Created { st with Created := true }
              region acct sel0 disc probe
            rw [hws] at hp
            simpa using hp
          cases res with
          | error e => simp [wordpress.wpCreate, hc, hws, h2]
          | ok u => simp [wordpress.wpCreate, hc, hws, h2]
  have hhead :
      (wordpress.wpCreate st region acct nsRes repoRes installRes sel0 disc
        probe).events.head? = some (wordpress.WPEvent.sync true) := by
    cases nsRes with
    | some e => simp [wordpress.wpCreate, hc]
    | none =>
      cases repoRes with
      | some e => simp [wordpress.wpCreate, hc]
      | none =>
        cases installRes with
        | some e => simp [wordpress.wpCreate, hc]
        | none =>
          rcases hws : wordpress.waitService { st with Created := true } region acct sel0 disc
            probe with ⟨st2, res⟩
          cases res with
          | error e => simp [wordpress.wpCreate, hc, hws]
          | ok u => simp [wordpress.wpCreate, hc, hws]
  exact ⟨hhead, hstate,
    fun region2 acct2 ns2 rp2 in2 sel2 disc2 probe2 =>
      wordpress.wpCreate_skip _ region2 acct2 ns2 rp2 in2 sel2 disc2 probe2 hstate⟩

/-- Claim C10, witness: a create whose discovery window elapses immediately
fails, yet leaves `Created = true` with the sync as first action, and the
next create call is a success no-op. -/
theorem create_marks_created_first_witness :
    (sampleAddOn false).Created = false ∧
    ((wordpress.wpCreate (sampleAddOn false) "us-west-2" "123456789012"
        none none none .tick [] []).events.head? =
          some (wordpress.WPEvent.sync true) ∧
     (wordpress.wpCreate (sampleAddOn false) "us-west-2" "123456789012"
        none none none .tick [] []).state.Created = true ∧
     (∀ (region2 acct2 : String) (ns2 rp2 in2 : StepErr) (sel2 : wordpress.Sel)
        (disc2 : List wordpress.DiscIter) (probe2 : List wordpress.ProbeIter),
      wordpress.wpCreate
        (wordpress.wpCreate (sampleAddOn false) "us-west-2" "123456789012"
          none none none .tick [] []).state
        region2 acct2 ns2 rp2 in2 sel2 disc2 probe2 =
      { state := (wordpress.wpCreate (sampleAddOn false) "us-west-2" "123456789012"
          none none none .tick [] []).state, result := none, events := [] })) :=
  ⟨rfl, create_marks_created_first _ _ _ _ _ _ _ _ _ rfl⟩

end AwsK8sTester
